import Mathlib

/-!
# Verification of the copilotos-bridge chat pipeline

Shallow embedding of the chat-response builder
(`apps/api/src/domain/chat_response_builder.py`), the simple chat strategy
(`apps/api/src/domain/chat_strategy.py`) and the unified-history endpoint
(`apps/api/src/routers/history.py`), together with proofs of the spec's
testable properties about them.

Python dictionaries are embedded as association lists of string keys and
JSON-like values, with Python's update semantics (assignment to an existing
key replaces the value in place, assignment to a fresh key appends).
External collaborators (document cache, inference client, sanitizer,
database, timeline service) are parameters of the embedded functions, as the
spec describes them as external capabilities.
-/

namespace CopilotosBridge

/-- JSON-like values stored in the Python dictionaries of the code:
`None`, booleans, integers, rationals (embedding Python floats such as the
rounded latency), strings, lists, and nested objects. -/
inductive Val where
  | null : Val
  | bool (b : Bool) : Val
  | int (n : Int) : Val
  | num (q : ℚ) : Val
  | str (s : String) : Val
  | arr (xs : List Val) : Val
  | obj (fields : List (String × Val)) : Val

/-- A Python dict with string keys, in insertion order. -/
abbrev Dict := List (String × Val)

/-- `d[k] = v` in Python: replace the value if `k` is present, else append. -/
def setKey (d : Dict) (k : String) (v : Val) : Dict :=
  match d with
  | [] => [(k, v)]
  | (k', v') :: rest => if k' = k then (k, v) :: rest else (k', v') :: setKey rest k v

/-- `d.get(k)` in Python: the value at `k`, if present. -/
def getVal (d : Dict) (k : String) : Option Val :=
  match d with
  | [] => none
  | (k', v') :: rest => if k' = k then some v' else getVal rest k

/-- Truthiness of a Python `Optional[str]`: `None` and `""` are falsy. -/
def strTruthy : Option String → Bool
  | none => false
  | some s => !s.isEmpty


/-- Python's `round(x, 2)` on the latency value, embedded on rationals. -/
def roundTo2 (q : ℚ) : ℚ := ((round (q * 100) : ℤ) : ℚ) / 100

/-- A `fastapi.responses.JSONResponse`: content dict, headers, status code. -/
structure JSONResponse where
  content : Dict
  headers : List (String × String)
  status_code : Nat

/-- The fixed cache-control headers installed by `ChatResponseBuilder.__init__`. -/
def noStoreHeaders : List (String × String) :=
  [("Cache-Control", "no-store, no-cache, must-revalidate, max-age=0"),
   ("Pragma", "no-cache"),
   ("Expires", "0")]

/-- State of a `ChatResponseBuilder`: the `_data` dict, the `_metadata` dict
and the `_headers` dict, as set up by `__init__` and mutated by the
`with_X` methods. -/
structure ChatResponseBuilder where
  data : Dict
  metadata : Dict
  headers : List (String × String)

/-- `ChatResponseBuilder.__init__`; `timestamp` stands for the
`datetime.utcnow().isoformat()` string captured at construction time. -/
def ChatResponseBuilder.init (timestamp : String) : ChatResponseBuilder where
  data := [("type", .str "chat"), ("response", .str ""), ("chat_id", .null),
           ("message_id", .null), ("timestamp", .str timestamp)]
  metadata := []
  headers := noStoreHeaders

def ChatResponseBuilder.with_chat_id (b : ChatResponseBuilder) (chat_id : String) :
    ChatResponseBuilder :=
  { b with data := setKey b.data "chat_id" (.str chat_id) }

def ChatResponseBuilder.with_message (b : ChatResponseBuilder) (content : String)
    (sanitized : Bool) : ChatResponseBuilder :=
  let d := setKey b.data "response" (.str content)
  { b with data := if sanitized then setKey d "sanitized" (.bool true) else d }

def ChatResponseBuilder.with_message_id (b : ChatResponseBuilder) (message_id : String) :
    ChatResponseBuilder :=
  { b with data := setKey b.data "message_id" (.str message_id) }

def ChatResponseBuilder.with_model (b : ChatResponseBuilder) (model : String) :
    ChatResponseBuilder :=
  { b with data := setKey b.data "model" (.str model) }

def ChatResponseBuilder.with_tokens (b : ChatResponseBuilder)
    (prompt_tokens completion_tokens : Int) : ChatResponseBuilder :=
  let tok : Val := .obj [("prompt", .int prompt_tokens), ("completion", .int completion_tokens),
    ("total", .int (prompt_tokens + completion_tokens))]
  { b with data := setKey b.data "tokens" tok }

def ChatResponseBuilder.with_latency (b : ChatResponseBuilder) (latency_ms : ℚ) :
    ChatResponseBuilder :=
  { b with data := setKey b.data "latency_ms" (.num (roundTo2 latency_ms)) }

def ChatResponseBuilder.with_decision (b : ChatResponseBuilder) (decision : Dict) :
    ChatResponseBuilder :=
  { b with data := setKey b.data "decision" (.obj decision) }

def ChatResponseBuilder.with_research_task (b : ChatResponseBuilder) (task_id : String) :
    ChatResponseBuilder :=
  let d := setKey b.data "task_id" (.str task_id)
  { b with data := setKey d "research_triggered" (.bool true) }

def ChatResponseBuilder.with_session_title (b : ChatResponseBuilder) (title : String) :
    ChatResponseBuilder :=
  { b with data := setKey b.data "session_title" (.str title) }

def ChatResponseBuilder.with_metadata (b : ChatResponseBuilder) (key : String) (value : Val) :
    ChatResponseBuilder :=
  { b with metadata := setKey b.metadata key value }

/-- `with_error`; `error_code` is only stored when truthy (neither `None` nor
the empty string). -/
def ChatResponseBuilder.with_error (b : ChatResponseBuilder) (error_message : String)
    (error_code : Option String) : ChatResponseBuilder :=
  let d := setKey b.data "error" (.str error_message)
  { b with data := if strTruthy error_code
      then setKey d "error_code" (.str (error_code.getD "")) else d }

/-- `build()`: merges `_metadata` into `_data` (a mutation of the builder,
hence the second component) and returns a 200 response with the accumulated
data and headers. -/
def ChatResponseBuilder.build (b : ChatResponseBuilder) :
    JSONResponse × ChatResponseBuilder :=
  let d := if b.metadata.isEmpty then b.data else setKey b.data "metadata" (.obj b.metadata)
  ({ content := d, headers := b.headers, status_code := 200 }, { b with data := d })

/-- `build_error(status_code)`: the fixed three-key error payload.
`_data["timestamp"]` is always present (set by `__init__`, never deleted), so
the `getD .null` fallback for it is unreachable. -/
def ChatResponseBuilder.build_error (b : ChatResponseBuilder) (status_code : Nat) :
    JSONResponse where
  content := [("error", (getVal b.data "error").getD (.str "Unknown error")),
              ("error_code", (getVal b.data "error_code").getD .null),
              ("timestamp", (getVal b.data "timestamp").getD .null)]
  headers := b.headers
  status_code := status_code

/-- One call against a `ChatResponseBuilder`, covering every public method
that touches the builder state (including `build()`, which mutates `_data`). -/
inductive BuilderOp where
  | with_chat_id (chat_id : String)
  | with_message (content : String) (sanitized : Bool)
  | with_message_id (message_id : String)
  | with_model (model : String)
  | with_tokens (prompt_tokens completion_tokens : Int)
  | with_latency (latency_ms : ℚ)
  | with_decision (decision : Dict)
  | with_research_task (task_id : String)
  | with_session_title (title : String)
  | with_metadata (key : String) (value : Val)
  | with_error (error_message : String) (error_code : Option String)
  | build

/-- Apply one builder call to the builder state. -/
def BuilderOp.apply (b : ChatResponseBuilder) : BuilderOp → ChatResponseBuilder
  | .with_chat_id c => b.with_chat_id c
  | .with_message c s => b.with_message c s
  | .with_message_id m => b.with_message_id m
  | .with_model m => b.with_model m
  | .with_tokens p c => b.with_tokens p c
  | .with_latency l => b.with_latency l
  | .with_decision d => b.with_decision d
  | .with_research_task t => b.with_research_task t
  | .with_session_title t => b.with_session_title t
  | .with_metadata k v => b.with_metadata k v
  | .with_error m c => b.with_error m c
  | .build => b.build.2

/-- Apply a sequence of builder calls, left to right. -/
def applyOps (ops : List BuilderOp) (b : ChatResponseBuilder) : ChatResponseBuilder :=
  ops.foldl BuilderOp.apply b

/-- Does this builder call store an `error_code` into `_data`? Only
`with_error` with a truthy code does. -/
def setsErrorCode : BuilderOp → Bool
  | .with_error _ c => strTruthy c
  | _ => false

/-- Is this builder call a `with_error` call? -/
def isWithError : BuilderOp → Bool
  | .with_error _ _ => true
  | _ => false


/-- Modelled from the spec: `ChatContext` is declared in
`apps/api/src/domain/chat_context.py`, which is not among the verified
sources. Fields follow spec section 4.1 (user_id, session_id, message text,
model name, document ids, tools_enabled flag) and the attribute accesses in
`chat_strategy.py`. -/
structure ChatContext where
  user_id : String
  session_id : Option String
  message : String
  model : String
  document_ids : List String
  tools_enabled : Bool

/-- Modelled from the spec: `MessageMetadata` is declared in the missing
`chat_context.py`; fields follow the keyword arguments of its construction
in `SimpleChatStrategy.process`. -/
structure MessageMetadata where
  message_id : String
  chat_id : String
  user_message_id : String
  assistant_message_id : Option String
  model_used : String
  tokens_used : Option Dict
  latency_ms : Option ℚ
  decision_metadata : Dict

/-- Modelled from the spec: `ChatProcessingResult` is declared in the
missing `chat_context.py`; fields follow the keyword arguments of its
construction in `SimpleChatStrategy.process` and spec section 4.1. -/
structure ChatProcessingResult where
  content : String
  sanitized_content : String
  metadata : MessageMetadata
  processing_time_ms : ℚ
  strategy_used : String
  research_triggered : Bool
  session_updated : Bool

/-- The `message` dict inside a Saptiva choice: may lack a `content` entry. -/
structure SaptivaMessage where
  content : Option String

/-- One entry of the `choices` list: a dict that may lack a `message` entry. -/
structure SaptivaChoice where
  message : Option SaptivaMessage

/-- The object under the `response` key of the inference result: either it
has no `choices` attribute at all, or it carries a list of choices.
(A missing `response` key is embedded as `none` at the use site.) -/
inductive SaptivaResponse where
  | noChoicesAttr
  | choices (cs : List SaptivaChoice)

/-- The dict returned by `ChatService.process_with_saptiva`, all keys read
with `.get` in `chat_strategy.py`. -/
structure CoordinatedResponse where
  response : Option SaptivaResponse
  decision : Option Dict
  tokens : Option Dict
  processing_time_ms : Option ℚ
  message_id : Option String

/-- Lines 154-160 of `chat_strategy.py`: take the first choice's
`message.content` with empty-string/empty-dict defaults at every level, and
the empty string when there is no `choices` attribute or it is empty. -/
def extractResponseContent : Option SaptivaResponse → String
  | some (.choices (c :: _)) => (c.message.bind SaptivaMessage.content).getD ""
  | _ => ""

/-- Is the inference response one with an empty choices list or no `choices`
attribute? -/
def emptyChoices : Option SaptivaResponse → Bool
  | some (.choices (_ :: _)) => false
  | _ => true

/-- Lines 168-172 of `chat_strategy.py`: start from `decision or {}`, add
`document_warnings` when the warning list is non-empty, add `context_stats`
when the stats dict is non-empty (truthy). -/
def mergeDocMetadata (decision : Dict) (doc_warnings : List String)
    (context_metadata : Dict) : Dict :=
  let dm := if doc_warnings.isEmpty then decision
            else setKey decision "document_warnings" (.arr (doc_warnings.map .str))
  if context_metadata.isEmpty then dm else setKey dm "context_stats" (.obj context_metadata)

/-- The initial context stats dict of `SimpleChatStrategy.process`. -/
def docStats0 : Dict := [("used_docs", .int 0), ("used_chars", .int 0)]

/-- `SimpleChatStrategy.get_strategy_name`. -/
def SimpleChatStrategy.get_strategy_name : String := "simple"

/-- `SimpleChatStrategy.process`. External collaborators are parameters:
the document cache lookup, the content-extraction budgeting capability, the
inference client and the sanitizer, exactly as called in the source.
`envMaxDocs` and `envMaxTotalChars` are the parsed `MAX_DOCS_PER_CHAT` and
`MAX_TOTAL_DOC_CHARS` environment variables (absent means the default is
used); `elapsedMs` stands for the wall-clock time measurement; `DocText` is
the opaque element type of the cache lookup result, which the source never
inspects beyond truthiness. -/
def SimpleChatStrategy.process {DocText : Type}
    (envMaxDocs envMaxTotalChars : Option Nat)
    (get_document_text_from_cache : List String → String → List DocText)
    (extract_content_for_rag_from_cache :
        List DocText → Nat → Nat → Nat → Option String × List String × Dict)
    (process_with_saptiva :
        String → String → String → String → Bool → Option String → CoordinatedResponse)
    (sanitize_response_content : String → String)
    (elapsedMs : ℚ)
    (context : ChatContext) : ChatProcessingResult :=
  let max_docs_per_chat := envMaxDocs.getD 3
  let max_total_doc_chars := envMaxTotalChars.getD 16000
  let docRes : Option String × List String × Dict :=
    if context.document_ids.isEmpty then (none, [], docStats0)
    else
      let doc_texts := get_document_text_from_cache context.document_ids context.user_id
      if doc_texts.isEmpty then (none, [], docStats0)
      else extract_content_for_rag_from_cache doc_texts 8000 max_total_doc_chars
        max_docs_per_chat
  let document_context := docRes.1
  let doc_warnings := docRes.2.1
  let context_metadata := docRes.2.2
  let coordinated_response := process_with_saptiva context.message context.model
    context.user_id (context.session_id.getD "") context.tools_enabled document_context
  let response_content := extractResponseContent coordinated_response.response
  let sanitized_content := sanitize_response_content response_content
  let decision_metadata := mergeDocMetadata (coordinated_response.decision.getD [])
    doc_warnings context_metadata
  { content := response_content
    sanitized_content := sanitized_content
    metadata := {
      message_id := coordinated_response.message_id.getD ""
      chat_id := context.session_id.getD ""
      user_message_id := ""
      assistant_message_id := coordinated_response.message_id
      model_used := context.model
      tokens_used := coordinated_response.tokens
      latency_ms := coordinated_response.processing_time_ms
      decision_metadata := decision_metadata }
    processing_time_ms := elapsedMs
    strategy_used := SimpleChatStrategy.get_strategy_name
    research_triggered := false
    session_updated := false }


/-- Concrete collaborators and context used by the witnesses. -/
def wGetCacheNone : List String → String → List String := fun _ _ => []

def wGetCacheOne : List String → String → List String := fun _ _ => ["cached doc text"]

def wExtractFixed : List String → Nat → Nat → Nat → Option String × List String × Dict :=
  fun _ _ _ _ => (some "CTX", ["el documento expiró"],
    [("used_docs", .int 1), ("used_chars", .int 3)])

def wSaptivaEmpty :
    String → String → String → String → Bool → Option String → CoordinatedResponse :=
  fun _ _ _ _ _ _ =>
    { response := some .noChoicesAttr, decision := none, tokens := none,
      processing_time_ms := none, message_id := none }

def wSaptivaFull :
    String → String → String → String → Bool → Option String → CoordinatedResponse :=
  fun _ _ _ _ _ _ =>
    { response := some (.choices [{ message := some { content := some "hola!" } }]),
      decision := some [("mode", .str "direct")],
      tokens := some [("prompt", .int 7), ("completion", .int 2)],
      processing_time_ms := some 120, message_id := some "m-1" }

def wCtxNoDocs : ChatContext :=
  { user_id := "u-1", session_id := some "s-1", message := "hola", model := "saptiva-turbo",
    document_ids := [], tools_enabled := false }

def wCtxDocs : ChatContext :=
  { user_id := "u-1", session_id := some "s-1", message := "hola", model := "saptiva-turbo",
    document_ids := ["d-1", "d-2"], tools_enabled := true }


/-- Modelled from the spec: `HistoryEventType` is declared in
`apps/api/src/models/history.py`, which is not among the verified sources.
The spec describes a tagged union of chat, research and source event types;
the members are the seven referenced in `history.py`, with snake_case
string values assumed for the string enum. -/
inductive HistoryEventType where
  | chat_message
  | research_started
  | research_progress
  | research_completed
  | research_failed
  | source_found
  | evidence_discovered
deriving DecidableEq

/-- The string value of each event type. -/
def HistoryEventType.value : HistoryEventType → String
  | .chat_message => "chat_message"
  | .research_started => "research_started"
  | .research_progress => "research_progress"
  | .research_completed => "research_completed"
  | .research_failed => "research_failed"
  | .source_found => "source_found"
  | .evidence_discovered => "evidence_discovered"

/-- Python `s.split(",")` on the character list: always at least one field,
empty fields preserved. -/
def pySplitCommaChars : List Char → List (List Char)
  | [] => [[]]
  | c :: rest =>
    if c = ',' then [] :: pySplitCommaChars rest
    else
      match pySplitCommaChars rest with
      | g :: gs => (c :: g) :: gs
      | [] => [[c]]

/-- Python `s.split(",")`. -/
def pySplitComma (s : String) : List String :=
  (pySplitCommaChars s.data).map String.mk

/-- Python `s.strip()`: drop leading and trailing whitespace. -/
def pyStrip (s : String) : String :=
  String.mk (((s.data.dropWhile Char.isWhitespace).reverse.dropWhile
    Char.isWhitespace).reverse)

/-- Enum lookup by value, `HistoryEventType(t)` in Python. -/
def parseHistoryEventType (s : String) : Option HistoryEventType :=
  if s = "chat_message" then some .chat_message
  else if s = "research_started" then some .research_started
  else if s = "research_progress" then some .research_progress
  else if s = "research_completed" then some .research_completed
  else if s = "research_failed" then some .research_failed
  else if s = "source_found" then some .source_found
  else if s = "evidence_discovered" then some .evidence_discovered
  else none

/-- `HistoryEventType(t.strip())` with the `ValueError` message CPython's
enum machinery raises on a bad value. -/
def parseOneEventType (t : String) : Except String HistoryEventType :=
  match parseHistoryEventType (pyStrip t) with
  | some e => .ok e
  | none => .error ("\x27" ++ pyStrip t ++ "\x27 is not a valid HistoryEventType")

/-- The list comprehension of line 442 of `history.py`: parse every comma
component, failing with the first bad component's `ValueError`. -/
def parseEventTypesList : List String → Except String (List HistoryEventType)
  | [] => .ok []
  | t :: rest =>
    match parseOneEventType t with
    | .error e => .error e
    | .ok v =>
      match parseEventTypesList rest with
      | .error e => .error e
      | .ok vs => .ok (v :: vs)

/-- Parse a comma-separated `event_types` query string. -/
def parseEventTypes (s : String) : Except String (List HistoryEventType) :=
  parseEventTypesList (pySplitComma s)

/-- Lines 454-469 of `history.py`: the default event-type filter used when
no explicit filter was given. -/
def defaultEventTypeFilter (include_research include_sources : Bool) :
    List HistoryEventType :=
  [HistoryEventType.chat_message]
    ++ (if include_research then
          [HistoryEventType.research_started, HistoryEventType.research_progress,
           HistoryEventType.research_completed, HistoryEventType.research_failed]
        else [])
    ++ (if include_sources then
          [HistoryEventType.source_found, HistoryEventType.evidence_discovered]
        else [])

/-- Modelled from the spec: the persisted `ChatSession` record
(`models/chat.py` is not among the verified sources); the unified-history
handler only consults its `user_id`. -/
structure ChatSessionRec where
  user_id : String

/-- A Python exception reaching the handler's `try` block: a FastAPI
`HTTPException` (re-raised unchanged) or any other exception (caught and
turned into a 500). -/
inductive PyExc where
  | http (status : Nat) (detail : String)
  | other (message : String)

/-- The `NO_STORE_HEADERS` dict of `history.py`. -/
def NO_STORE_HEADERS : List (String × String) :=
  [("Cache-Control", "no-store, no-cache, must-revalidate, max-age=0"),
   ("Pragma", "no-cache"),
   ("Expires", "0")]

/-- `get_unified_chat_history`. `sessionLookup` embeds the awaited
`ChatSessionModel.get(chat_id)` (its value, or the exception it raises),
`timelineFetch` embeds `HistoryService.get_chat_timeline` applied to
`limit`, `offset` and the event-type filter, and `elapsedMs` the measured
processing time. The result is the returned `JSONResponse`, or, in the
error component, the status and detail of a re-raised `HTTPException`. -/
def get_unified_chat_history
    (sessionLookup : Except PyExc (Option ChatSessionRec))
    (timelineFetch : Nat → Nat → List HistoryEventType → Except PyExc Dict)
    (chat_id user_id : String)
    (limit offset : Nat)
    (event_types : Option String)
    (include_research include_sources : Bool)
    (elapsedMs : Int) : Except (Nat × String) JSONResponse :=
  let tryBody : Except PyExc JSONResponse :=
    match sessionLookup with
    | .error e => .error e
    | .ok none =>
      .ok { content := [("error", .str "Chat session not found"),
                        ("chat_id", .str chat_id),
                        ("message", .str "The requested chat session does not exist")],
            headers := NO_STORE_HEADERS, status_code := 404 }
    | .ok (some chat_session) =>
      if chat_session.user_id ≠ user_id then
        .ok { content := [("error", .str "Access denied"),
                          ("chat_id", .str chat_id),
                          ("message", .str "You don\x27t have permission to access this chat session")],
              headers := NO_STORE_HEADERS, status_code := 403 }
      else
        let parsed : Except String (Option (List HistoryEventType)) :=
          match event_types with
          | some s => if s.isEmpty then .ok none else (parseEventTypes s).map some
          | none => .ok none
        match parsed with
        | .error emsg =>
          .ok { content := [("error", .str "Invalid event type"),
                            ("message", .str ("Invalid event type in filter: " ++ emsg))],
                headers := NO_STORE_HEADERS, status_code := 400 }
        | .ok filt? =>
          let event_type_filter :=
            filt?.getD (defaultEventTypeFilter include_research include_sources)
          match timelineFetch limit offset event_type_filter with
          | .error e => .error e
          | .ok timeline_data =>
            let td1 := setKey timeline_data "latency_ms" (.int elapsedMs)
            let td2 := setKey td1 "user_id" (.str user_id)
            let filters : Val := .obj
              [("include_research", .bool include_research),
               ("include_sources", .bool include_sources),
               ("event_types",
                if event_type_filter.isEmpty then .null
                else .arr (event_type_filter.map (fun et => .str et.value)))]
            .ok { content := setKey td2 "filters" filters,
                  headers := NO_STORE_HEADERS, status_code := 200 }
  match tryBody with
  | .ok r => .ok r
  | .error (.http st d) => .error (st, d)
  | .error (.other _) =>
    .ok { content := [("error", .str "Internal server error"),
                      ("chat_id", .str chat_id),
                      ("message", .str "Failed to retrieve chat history"),
                      ("latency_ms", .int elapsedMs)],
          headers := NO_STORE_HEADERS, status_code := 500 }

/-- The status code of a handler outcome (the response status, or the
status of a re-raised `HTTPException`). -/
def handlerStatus : Except (Nat × String) JSONResponse → Nat
  | .ok r => r.status_code
  | .error p => p.1

theorem getVal_setKey_self (d : Dict) (k : String) (v : Val) :
    getVal (setKey d k v) k = some v := by
  induction d with
  | nil => simp [setKey, getVal]
  | cons p rest ih =>
    obtain ⟨k', v'⟩ := p
    by_cases h : k' = k
    · simp [setKey, getVal, h]
    · simp [setKey, getVal, h, ih]

theorem getVal_setKey_ne (d : Dict) (k k' : String) (v : Val) (h : k ≠ k') :
    getVal (setKey d k v) k' = getVal d k' := by
  induction d with
  | nil => simp [setKey, getVal, h]
  | cons p rest ih =>
    obtain ⟨k₀, v₀⟩ := p
    by_cases h₀ : k₀ = k
    · subst h₀
      simp [setKey, getVal, h]
    · by_cases h₁ : k₀ = k'
      · subst h₁
        simp [setKey, getVal, h₀, Ne.symm h]
      · simp [setKey, getVal, h₀, h₁, ih]

theorem setKey_setKey_same (d : Dict) (k : String) (v : Val) :
    setKey (setKey d k v) k v = setKey d k v := by
  induction d with
  | nil => simp [setKey]
  | cons p rest ih =>
    obtain ⟨k', v'⟩ := p
    by_cases h : k' = k
    · simp [setKey, h]
    · simp [setKey, h, ih]
theorem getVal_setKey_comm (d : Dict) (k₁ k₂ k : String) (v₁ v₂ : Val) (h : k₁ ≠ k₂) :
    getVal (setKey (setKey d k₁ v₁) k₂ v₂) k = getVal (setKey (setKey d k₂ v₂) k₁ v₁) k := by
  by_cases h₁ : k₁ = k
  · subst h₁
    rw [getVal_setKey_ne _ k₂ k₁ _ (Ne.symm h), getVal_setKey_self, getVal_setKey_self]
  · by_cases h₂ : k₂ = k
    · subst h₂
      rw [getVal_setKey_self, getVal_setKey_ne _ k₁ k₂ _ h, getVal_setKey_self]
    · rw [getVal_setKey_ne _ k₂ k _ h₂, getVal_setKey_ne _ k₁ k _ h₁,
        getVal_setKey_ne _ k₁ k _ h₁, getVal_setKey_ne _ k₂ k _ h₂]

/-- No builder call ever touches the headers dict. -/
theorem apply_headers (b : ChatResponseBuilder) (op : BuilderOp) :
    (BuilderOp.apply b op).headers = b.headers := by
  cases op <;> rfl

theorem applyOps_headers (ops : List BuilderOp) (b : ChatResponseBuilder) :
    (applyOps ops b).headers = b.headers := by
  induction ops generalizing b with
  | nil => rfl
  | cons op ops ih =>
    rw [applyOps, List.foldl_cons]
    rw [show List.foldl BuilderOp.apply (BuilderOp.apply b op) ops
        = applyOps ops (BuilderOp.apply b op) from rfl]
    rw [ih, apply_headers]

/-- No builder call writes the `timestamp` key of `_data`. -/
theorem apply_getVal_timestamp (b : ChatResponseBuilder) (op : BuilderOp) :
    getVal (BuilderOp.apply b op).data "timestamp" = getVal b.data "timestamp" := by
  cases op <;>
    simp only [BuilderOp.apply, ChatResponseBuilder.with_chat_id,
      ChatResponseBuilder.with_message, ChatResponseBuilder.with_message_id,
      ChatResponseBuilder.with_model, ChatResponseBuilder.with_tokens,
      ChatResponseBuilder.with_latency, ChatResponseBuilder.with_decision,
      ChatResponseBuilder.with_research_task, ChatResponseBuilder.with_session_title,
      ChatResponseBuilder.with_metadata, ChatResponseBuilder.with_error,
      ChatResponseBuilder.build] <;>
    (try split_ifs) <;>
    simp [getVal_setKey_ne]

theorem applyOps_getVal_timestamp (ops : List BuilderOp) (b : ChatResponseBuilder) :
    getVal (applyOps ops b).data "timestamp" = getVal b.data "timestamp" := by
  induction ops generalizing b with
  | nil => rfl
  | cons op ops ih =>
    rw [applyOps, List.foldl_cons]
    rw [show List.foldl BuilderOp.apply (BuilderOp.apply b op) ops
        = applyOps ops (BuilderOp.apply b op) from rfl]
    rw [ih, apply_getVal_timestamp]

/-- A builder call that is not a truthy-code `with_error` does not write the
`error_code` key of `_data`. -/
theorem apply_getVal_error_code (b : ChatResponseBuilder) (op : BuilderOp)
    (hop : setsErrorCode op = false) :
    getVal (BuilderOp.apply b op).data "error_code" = getVal b.data "error_code" := by
  cases op with
  | with_chat_id c => simp [BuilderOp.apply, ChatResponseBuilder.with_chat_id, getVal_setKey_ne]
  | with_message c s =>
    cases s <;> simp [BuilderOp.apply, ChatResponseBuilder.with_message, getVal_setKey_ne]
  | with_message_id m =>
    simp [BuilderOp.apply, ChatResponseBuilder.with_message_id, getVal_setKey_ne]
  | with_model m => simp [BuilderOp.apply, ChatResponseBuilder.with_model, getVal_setKey_ne]
  | with_tokens p c => simp [BuilderOp.apply, ChatResponseBuilder.with_tokens, getVal_setKey_ne]
  | with_latency l => simp [BuilderOp.apply, ChatResponseBuilder.with_latency, getVal_setKey_ne]
  | with_decision d => simp [BuilderOp.apply, ChatResponseBuilder.with_decision, getVal_setKey_ne]
  | with_research_task t =>
    simp [BuilderOp.apply, ChatResponseBuilder.with_research_task, getVal_setKey_ne]
  | with_session_title t =>
    simp [BuilderOp.apply, ChatResponseBuilder.with_session_title, getVal_setKey_ne]
  | with_metadata k v => simp [BuilderOp.apply, ChatResponseBuilder.with_metadata]
  | with_error m c =>
    simp only [setsErrorCode] at hop
    simp [BuilderOp.apply, ChatResponseBuilder.with_error, hop, getVal_setKey_ne]
  | build =>
    by_cases h : b.metadata.isEmpty <;>
      simp [BuilderOp.apply, ChatResponseBuilder.build, h, getVal_setKey_ne]

theorem applyOps_getVal_error_code (ops : List BuilderOp) (b : ChatResponseBuilder)
    (hops : ∀ op ∈ ops, setsErrorCode op = false) :
    getVal (applyOps ops b).data "error_code" = getVal b.data "error_code" := by
  induction ops generalizing b with
  | nil => rfl
  | cons op ops ih =>
    rw [applyOps, List.foldl_cons]
    rw [show List.foldl BuilderOp.apply (BuilderOp.apply b op) ops
        = applyOps ops (BuilderOp.apply b op) from rfl]
    rw [ih _ fun o ho => hops o (List.mem_cons_of_mem _ ho),
      apply_getVal_error_code _ _ (hops op (List.mem_cons_self _ _))]

/-- A builder call that is not `with_error` does not write the `error` key. -/
theorem apply_getVal_error (b : ChatResponseBuilder) (op : BuilderOp)
    (hop : isWithError op = false) :
    getVal (BuilderOp.apply b op).data "error" = getVal b.data "error" := by
  cases op with
  | with_chat_id c => simp [BuilderOp.apply, ChatResponseBuilder.with_chat_id, getVal_setKey_ne]
  | with_message c s =>
    cases s <;> simp [BuilderOp.apply, ChatResponseBuilder.with_message, getVal_setKey_ne]
  | with_message_id m =>
    simp [BuilderOp.apply, ChatResponseBuilder.with_message_id, getVal_setKey_ne]
  | with_model m => simp [BuilderOp.apply, ChatResponseBuilder.with_model, getVal_setKey_ne]
  | with_tokens p c => simp [BuilderOp.apply, ChatResponseBuilder.with_tokens, getVal_setKey_ne]
  | with_latency l => simp [BuilderOp.apply, ChatResponseBuilder.with_latency, getVal_setKey_ne]
  | with_decision d => simp [BuilderOp.apply, ChatResponseBuilder.with_decision, getVal_setKey_ne]
  | with_research_task t =>
    simp [BuilderOp.apply, ChatResponseBuilder.with_research_task, getVal_setKey_ne]
  | with_session_title t =>
    simp [BuilderOp.apply, ChatResponseBuilder.with_session_title, getVal_setKey_ne]
  | with_metadata k v => simp [BuilderOp.apply, ChatResponseBuilder.with_metadata]
  | with_error m c => simp [isWithError] at hop
  | build =>
    by_cases h : b.metadata.isEmpty <;>
      simp [BuilderOp.apply, ChatResponseBuilder.build, h, getVal_setKey_ne]

theorem applyOps_getVal_error (ops : List BuilderOp) (b : ChatResponseBuilder)
    (hops : ∀ op ∈ ops, isWithError op = false) :
    getVal (applyOps ops b).data "error" = getVal b.data "error" := by
  induction ops generalizing b with
  | nil => rfl
  | cons op ops ih =>
    rw [applyOps, List.foldl_cons]
    rw [show List.foldl BuilderOp.apply (BuilderOp.apply b op) ops
        = applyOps ops (BuilderOp.apply b op) from rfl]
    rw [ih _ fun o ho => hops o (List.mem_cons_of_mem _ ho),
      apply_getVal_error _ _ (hops op (List.mem_cons_self _ _))]

/-- C5: for every pair of token counts and every model string, applying
`with_tokens` then `with_model` to a freshly constructed `ChatResponseBuilder`
and calling `build()` yields the same built payload (same field-to-value
mapping, headers, and status code) as applying the two calls in the reverse
order. -/
theorem with_tokens_with_model_commute (ts model : String) (p c : Int) :
    (∀ k, getVal ((((ChatResponseBuilder.init ts).with_tokens p c).with_model model).build.1.content) k
        = getVal ((((ChatResponseBuilder.init ts).with_model model).with_tokens p c).build.1.content) k)
    ∧ (((ChatResponseBuilder.init ts).with_tokens p c).with_model model).build.1.headers
        = (((ChatResponseBuilder.init ts).with_model model).with_tokens p c).build.1.headers
    ∧ (((ChatResponseBuilder.init ts).with_tokens p c).with_model model).build.1.status_code
        = (((ChatResponseBuilder.init ts).with_model model).with_tokens p c).build.1.status_code := by
  refine ⟨fun k => ?_, rfl, rfl⟩
  simp only [ChatResponseBuilder.build, ChatResponseBuilder.init,
    ChatResponseBuilder.with_tokens, ChatResponseBuilder.with_model, List.isEmpty_nil,
    if_true]
  exact getVal_setKey_comm _ _ _ _ _ _ (by decide)

/-- C7: calling `build()` a second time on the same builder returns a
response with the same payload content, headers, and status code as the
first call, for every accumulated builder state (in particular when custom
metadata has been added). -/
theorem build_idempotent (b : ChatResponseBuilder) :
    b.build.2.build.1 = b.build.1 := by
  by_cases h : b.metadata.isEmpty <;>
    simp [ChatResponseBuilder.build, h, setKey_setKey_same]

/-- C6: for every builder state reachable by any sequence of builder calls,
`build_error` produces a payload whose `timestamp` equals the timestamp
recorded at construction, and which never contains a `response` field,
whatever the chosen status code. -/
theorem build_error_timestamp_no_response (ts : String) (ops : List BuilderOp) (code : Nat) :
    getVal (((applyOps ops (ChatResponseBuilder.init ts)).build_error code).content) "timestamp"
        = some (.str ts)
    ∧ getVal (((applyOps ops (ChatResponseBuilder.init ts)).build_error code).content) "response"
        = none := by
  constructor
  · have h : getVal (applyOps ops (ChatResponseBuilder.init ts)).data "timestamp"
        = some (.str ts) := by
      rw [applyOps_getVal_timestamp]
      simp [ChatResponseBuilder.init, getVal]
    simp [ChatResponseBuilder.build_error, getVal, h]
  · simp [ChatResponseBuilder.build_error, getVal]

/-- C8: every response produced by `build()` or `build_error()` carries
exactly the fixed no-store cache-control headers, `build()` always has
status code 200, and `build_error()` uses the caller-chosen status code,
for every builder state reachable by any sequence of builder calls. -/
theorem headers_and_status_fixed (ts : String) (ops : List BuilderOp) (code : Nat) :
    (applyOps ops (ChatResponseBuilder.init ts)).build.1.headers = noStoreHeaders
    ∧ (applyOps ops (ChatResponseBuilder.init ts)).build.1.status_code = 200
    ∧ ((applyOps ops (ChatResponseBuilder.init ts)).build_error code).headers = noStoreHeaders
    ∧ ((applyOps ops (ChatResponseBuilder.init ts)).build_error code).status_code = code := by
  have h := applyOps_headers ops (ChatResponseBuilder.init ts)
  exact ⟨by simp [ChatResponseBuilder.build, h]; rfl, rfl,
    by simp [ChatResponseBuilder.build_error, h]; rfl, rfl⟩

/-- C10: for every builder state reachable by any sequence of builder calls,
the `build_error` payload contains exactly the keys `error`, `error_code`
and `timestamp`; `error_code` is null whenever no truthy error code was ever
set, and `error` defaults to "Unknown error" when `with_error` was never
called. -/
theorem build_error_shape (ts : String) (ops : List BuilderOp) (code : Nat) :
    (((applyOps ops (ChatResponseBuilder.init ts)).build_error code).content.map Prod.fst
        = ["error", "error_code", "timestamp"])
    ∧ ((∀ op ∈ ops, setsErrorCode op = false) →
        getVal (((applyOps ops (ChatResponseBuilder.init ts)).build_error code).content) "error_code"
          = some .null)
    ∧ ((∀ op ∈ ops, isWithError op = false) →
        getVal (((applyOps ops (ChatResponseBuilder.init ts)).build_error code).content) "error"
          = some (.str "Unknown error")) := by
  refine ⟨by simp [ChatResponseBuilder.build_error], fun hops => ?_, fun hops => ?_⟩
  · have h : getVal (applyOps ops (ChatResponseBuilder.init ts)).data "error_code" = none := by
      rw [applyOps_getVal_error_code ops _ hops]
      simp [ChatResponseBuilder.init, getVal]
    simp [ChatResponseBuilder.build_error, getVal, h]
  · have h : getVal (applyOps ops (ChatResponseBuilder.init ts)).data "error" = none := by
      rw [applyOps_getVal_error ops _ hops]
      simp [ChatResponseBuilder.init, getVal]
    simp [ChatResponseBuilder.build_error, getVal, h]

/-- Witness for C10: instantiation at a concrete call sequence satisfying
both hypotheses. -/
theorem build_error_shape_witness :
    (((applyOps [BuilderOp.with_model "saptiva-turbo"]
        (ChatResponseBuilder.init "2024-01-01T00:00:00")).build_error 500).content.map Prod.fst
        = ["error", "error_code", "timestamp"])
    ∧ getVal (((applyOps [BuilderOp.with_model "saptiva-turbo"]
        (ChatResponseBuilder.init "2024-01-01T00:00:00")).build_error 500).content) "error_code"
          = some .null
    ∧ getVal (((applyOps [BuilderOp.with_model "saptiva-turbo"]
        (ChatResponseBuilder.init "2024-01-01T00:00:00")).build_error 500).content) "error"
          = some (.str "Unknown error") := by
  have h := build_error_shape "2024-01-01T00:00:00" [BuilderOp.with_model "saptiva-turbo"] 500
  refine ⟨h.1, h.2.1 ?_, h.2.2 ?_⟩ <;>
    (intro op hop; simp only [List.mem_singleton] at hop; subst hop; rfl)
theorem extractResponseContent_eq_empty (ro : Option SaptivaResponse)
    (h : emptyChoices ro = true) : extractResponseContent ro = "" := by
  cases ro with
  | none => rfl
  | some r =>
    cases r with
    | noChoicesAttr => rfl
    | choices cs =>
      cases cs with
      | nil => rfl
      | cons c rest => simp [emptyChoices] at h

/-- C9: whatever the input context, environment and collaborator behaviour,
the result of `SimpleChatStrategy.process` has `research_triggered = False`,
`session_updated = False` and `strategy_used = "simple"`. -/
theorem process_fixed_flags {DocText : Type} (envMaxDocs envMaxTotalChars : Option Nat)
    (get_document_text_from_cache : List String → String → List DocText)
    (extract_content_for_rag_from_cache :
        List DocText → Nat → Nat → Nat → Option String × List String × Dict)
    (process_with_saptiva :
        String → String → String → String → Bool → Option String → CoordinatedResponse)
    (sanitize_response_content : String → String)
    (elapsedMs : ℚ) (context : ChatContext) :
    (SimpleChatStrategy.process envMaxDocs envMaxTotalChars get_document_text_from_cache
        extract_content_for_rag_from_cache process_with_saptiva sanitize_response_content
        elapsedMs context).research_triggered = false
    ∧ (SimpleChatStrategy.process envMaxDocs envMaxTotalChars get_document_text_from_cache
        extract_content_for_rag_from_cache process_with_saptiva sanitize_response_content
        elapsedMs context).session_updated = false
    ∧ (SimpleChatStrategy.process envMaxDocs envMaxTotalChars get_document_text_from_cache
        extract_content_for_rag_from_cache process_with_saptiva sanitize_response_content
        elapsedMs context).strategy_used = "simple" :=
  ⟨rfl, rfl, rfl⟩

/-- C2: whenever the inference client's response object has an empty choices
list or no choices attribute, `SimpleChatStrategy.process` completes
normally with `response_content` (hence the result's `content`) equal to the
empty string. -/
theorem process_empty_choices_content {DocText : Type}
    (envMaxDocs envMaxTotalChars : Option Nat)
    (get_document_text_from_cache : List String → String → List DocText)
    (extract_content_for_rag_from_cache :
        List DocText → Nat → Nat → Nat → Option String × List String × Dict)
    (process_with_saptiva :
        String → String → String → String → Bool → Option String → CoordinatedResponse)
    (sanitize_response_content : String → String)
    (elapsedMs : ℚ) (context : ChatContext)
    (hresp : ∀ m mo u ch te dc,
        emptyChoices (process_with_saptiva m mo u ch te dc).response = true) :
    (SimpleChatStrategy.process envMaxDocs envMaxTotalChars get_document_text_from_cache
        extract_content_for_rag_from_cache process_with_saptiva sanitize_response_content
        elapsedMs context).content = "" := by
  simp only [SimpleChatStrategy.process]
  exact extractResponseContent_eq_empty _ (hresp _ _ _ _ _ _)
/-- Witness for C2 at a concrete context and an inference client answering
with no choices. -/
theorem process_empty_choices_content_witness :
    (SimpleChatStrategy.process none none wGetCacheNone wExtractFixed
        wSaptivaEmpty id 5 wCtxNoDocs).content = "" :=
  process_empty_choices_content none none wGetCacheNone wExtractFixed wSaptivaEmpty id 5
    wCtxNoDocs (fun _ _ _ _ _ _ => rfl)

/-- C3: with an empty document-id list, `SimpleChatStrategy.process` calls
the inference client with no document context, and the decision metadata is
the client's decision blob with context stats exactly
`{used_docs: 0, used_chars: 0}` and no added warnings. -/
theorem process_no_documents {DocText : Type}
    (envMaxDocs envMaxTotalChars : Option Nat)
    (get_document_text_from_cache : List String → String → List DocText)
    (extract_content_for_rag_from_cache :
        List DocText → Nat → Nat → Nat → Option String × List String × Dict)
    (process_with_saptiva :
        String → String → String → String → Bool → Option String → CoordinatedResponse)
    (sanitize_response_content : String → String)
    (elapsedMs : ℚ) (context : ChatContext)
    (hids : context.document_ids = []) :
    let cr := process_with_saptiva context.message context.model context.user_id
        (context.session_id.getD "") context.tools_enabled none
    let r := SimpleChatStrategy.process envMaxDocs envMaxTotalChars
        get_document_text_from_cache extract_content_for_rag_from_cache process_with_saptiva
        sanitize_response_content elapsedMs context
    r.content = extractResponseContent cr.response
    ∧ r.sanitized_content = sanitize_response_content (extractResponseContent cr.response)
    ∧ r.metadata.decision_metadata
        = setKey (cr.decision.getD []) "context_stats" (.obj docStats0)
    ∧ r.metadata.tokens_used = cr.tokens := by
  simp [SimpleChatStrategy.process, hids, mergeDocMetadata, docStats0]

/-- Witness for C3 at a concrete context with no document ids. -/
theorem process_no_documents_witness :
    (SimpleChatStrategy.process none none wGetCacheOne wExtractFixed
        wSaptivaFull id 5 wCtxNoDocs).content
      = extractResponseContent ((wSaptivaFull "hola" "saptiva-turbo" "u-1" "s-1" false
          none).response)
    ∧ (SimpleChatStrategy.process none none wGetCacheOne wExtractFixed
        wSaptivaFull id 5 wCtxNoDocs).metadata.decision_metadata
      = setKey (((wSaptivaFull "hola" "saptiva-turbo" "u-1" "s-1" false none).decision).getD [])
          "context_stats" (.obj docStats0) := by
  have h := process_no_documents none none wGetCacheOne wExtractFixed
    wSaptivaFull id 5 wCtxNoDocs rfl
  exact ⟨h.1, h.2.2.1⟩

/-- C1: with a non-empty document-id list and a non-empty cache result,
`SimpleChatStrategy.process` calls the budgeting capability with per-document
cap 8000, total cap `MAX_TOTAL_DOC_CHARS` (default 16000) and document cap
`MAX_DOCS_PER_CHAT` (default 3), passes the returned context string to the
inference client, and records the returned warnings and stats unchanged in
the decision metadata. -/
theorem process_budgeting {DocText : Type}
    (envMaxDocs envMaxTotalChars : Option Nat)
    (get_document_text_from_cache : List String → String → List DocText)
    (extract_content_for_rag_from_cache :
        List DocText → Nat → Nat → Nat → Option String × List String × Dict)
    (process_with_saptiva :
        String → String → String → String → Bool → Option String → CoordinatedResponse)
    (sanitize_response_content : String → String)
    (elapsedMs : ℚ) (context : ChatContext)
    (hids : context.document_ids ≠ [])
    (hcache : get_document_text_from_cache context.document_ids context.user_id ≠ []) :
    let triple := extract_content_for_rag_from_cache
        (get_document_text_from_cache context.document_ids context.user_id) 8000
        (envMaxTotalChars.getD 16000) (envMaxDocs.getD 3)
    let cr := process_with_saptiva context.message context.model context.user_id
        (context.session_id.getD "") context.tools_enabled triple.1
    let r := SimpleChatStrategy.process envMaxDocs envMaxTotalChars
        get_document_text_from_cache extract_content_for_rag_from_cache process_with_saptiva
        sanitize_response_content elapsedMs context
    r.content = extractResponseContent cr.response
    ∧ r.sanitized_content = sanitize_response_content (extractResponseContent cr.response)
    ∧ r.metadata.decision_metadata
        = mergeDocMetadata (cr.decision.getD []) triple.2.1 triple.2.2
    ∧ r.metadata.tokens_used = cr.tokens
    ∧ r.metadata.latency_ms = cr.processing_time_ms
    ∧ r.metadata.message_id = cr.message_id.getD "" := by
  have h1 : context.document_ids.isEmpty = false := by
    cases h : context.document_ids with
    | nil => exact absurd h hids
    | cons a l => rfl
  have h2 : (get_document_text_from_cache context.document_ids context.user_id).isEmpty
      = false := by
    cases h : get_document_text_from_cache context.document_ids context.user_id with
    | nil => exact absurd h hcache
    | cons a l => rfl
  simp [SimpleChatStrategy.process, h1, h2]

/-- Witness for C1 at a concrete context with document ids and a cache that
returns one document. -/
theorem process_budgeting_witness :
    (SimpleChatStrategy.process none none wGetCacheOne wExtractFixed
        wSaptivaFull id 5 wCtxDocs).metadata.decision_metadata
      = mergeDocMetadata
          (((wSaptivaFull "hola" "saptiva-turbo" "u-1" "s-1" true (some "CTX")).decision).getD [])
          (wExtractFixed ["cached doc text"] 8000 16000 3).2.1
          (wExtractFixed ["cached doc text"] 8000 16000 3).2.2
    ∧ (SimpleChatStrategy.process none none wGetCacheOne wExtractFixed
        wSaptivaFull id 5 wCtxDocs).metadata.tokens_used
      = (wSaptivaFull "hola" "saptiva-turbo" "u-1" "s-1" true (some "CTX")).tokens := by
  have h := process_budgeting none none wGetCacheOne wExtractFixed
    wSaptivaFull id 5 wCtxDocs (by decide) (by decide)
  exact ⟨h.2.2.1, h.2.2.2.1⟩
theorem parseEventTypesList_error_of_mem (l : List String) (t : String)
    (ht : t ∈ l) (hbad : parseHistoryEventType (pyStrip t) = none) :
    ∃ e, parseEventTypesList l = .error e := by
  induction l with
  | nil => cases ht
  | cons u rest ih =>
    rcases List.mem_cons.mp ht with h | h
    · subst h
      refine ⟨"\x27" ++ pyStrip t ++ "\x27 is not a valid HistoryEventType", ?_⟩
      simp [parseEventTypesList, parseOneEventType, hbad]
    · match hu : parseOneEventType u with
      | .error e => exact ⟨e, by simp [parseEventTypesList, hu]⟩
      | .ok v =>
        obtain ⟨e, he⟩ := ih h
        exact ⟨e, by simp [parseEventTypesList, hu, he]⟩

/-- C4: the unified-history endpoint returns 404 for a missing session, 403
for an ownership mismatch, 400 for an invalid event-type filter value, and,
for an unexpected exception (from the session lookup or the timeline fetch),
a 500 whose body is the fixed generic payload, independent of the original
error message. -/
theorem unified_history_error_taxonomy
    (sessionLookup : Except PyExc (Option ChatSessionRec))
    (timelineFetch : Nat → Nat → List HistoryEventType → Except PyExc Dict)
    (chat_id user_id : String) (limit offset : Nat)
    (event_types : Option String) (include_research include_sources : Bool)
    (elapsedMs : Int) :
    (sessionLookup = .ok none →
      handlerStatus (get_unified_chat_history sessionLookup timelineFetch chat_id user_id
        limit offset event_types include_research include_sources elapsedMs) = 404)
    ∧ (∀ s, sessionLookup = .ok (some s) → s.user_id ≠ user_id →
      handlerStatus (get_unified_chat_history sessionLookup timelineFetch chat_id user_id
        limit offset event_types include_research include_sources elapsedMs) = 403)
    ∧ (∀ s et t, sessionLookup = .ok (some s) → s.user_id = user_id →
        event_types = some et → et ≠ "" → t ∈ pySplitComma et →
        parseHistoryEventType (pyStrip t) = none →
      handlerStatus (get_unified_chat_history sessionLookup timelineFetch chat_id user_id
        limit offset event_types include_research include_sources elapsedMs) = 400)
    ∧ (∀ e, sessionLookup = .error (.other e) →
      get_unified_chat_history sessionLookup timelineFetch chat_id user_id
        limit offset event_types include_research include_sources elapsedMs
      = .ok { content := [("error", .str "Internal server error"),
                          ("chat_id", .str chat_id),
                          ("message", .str "Failed to retrieve chat history"),
                          ("latency_ms", .int elapsedMs)],
              headers := NO_STORE_HEADERS, status_code := 500 })
    ∧ (∀ s e, sessionLookup = .ok (some s) → s.user_id = user_id → event_types = none →
        timelineFetch limit offset (defaultEventTypeFilter include_research include_sources)
          = .error (.other e) →
      get_unified_chat_history sessionLookup timelineFetch chat_id user_id
        limit offset event_types include_research include_sources elapsedMs
      = .ok { content := [("error", .str "Internal server error"),
                          ("chat_id", .str chat_id),
                          ("message", .str "Failed to retrieve chat history"),
                          ("latency_ms", .int elapsedMs)],
              headers := NO_STORE_HEADERS, status_code := 500 }) := by
  refine ⟨fun h => ?_, fun s h hne => ?_, fun s et t h hu het hne hmem hbad => ?_,
    fun e h => ?_, fun s e h hu hnone hfetch => ?_⟩
  · simp [get_unified_chat_history, h, handlerStatus]
  · simp [get_unified_chat_history, h, hne, handlerStatus]
  · have hie : et.isEmpty = false := by
      cases hx : et.isEmpty
      · rfl
      · exact absurd ((String.isEmpty_iff et).mp hx) hne
    obtain ⟨msg, hmsg⟩ := parseEventTypesList_error_of_mem (pySplitComma et) t hmem hbad
    have hparse : parseEventTypes et = .error msg := by
      simp [parseEventTypes, hmsg]
    simp [get_unified_chat_history, h, hu, het, hie, hparse, handlerStatus, Except.map]
  · simp [get_unified_chat_history, h]
  · simp [get_unified_chat_history, h, hu, hnone, hfetch]

/-- Witness for C4: each branch of the taxonomy exercised at concrete
inputs. -/
theorem unified_history_error_taxonomy_witness :
    handlerStatus (get_unified_chat_history (.ok none) (fun _ _ _ => .ok []) "c-1" "u-1"
      50 0 none true false 10) = 404
    ∧ handlerStatus (get_unified_chat_history (.ok (some { user_id := "owner" }))
      (fun _ _ _ => .ok []) "c-1" "u-1" 50 0 none true false 10) = 403
    ∧ handlerStatus (get_unified_chat_history (.ok (some { user_id := "u-1" }))
      (fun _ _ _ => .ok []) "c-1" "u-1" 50 0 (some "chat_message, bogus") true false 10) = 400
    ∧ get_unified_chat_history (.error (.other "redis timeout")) (fun _ _ _ => .ok [])
      "c-1" "u-1" 50 0 none true false 10
      = .ok { content := [("error", .str "Internal server error"),
                          ("chat_id", .str "c-1"),
                          ("message", .str "Failed to retrieve chat history"),
                          ("latency_ms", .int 10)],
              headers := NO_STORE_HEADERS, status_code := 500 }
    ∧ get_unified_chat_history (.ok (some { user_id := "u-1" }))
      (fun _ _ _ => .error (.other "database down")) "c-1" "u-1" 50 0 none true false 10
      = .ok { content := [("error", .str "Internal server error"),
                          ("chat_id", .str "c-1"),
                          ("message", .str "Failed to retrieve chat history"),
                          ("latency_ms", .int 10)],
              headers := NO_STORE_HEADERS, status_code := 500 } := by
  refine ⟨?_, ?_, ?_, ?_, ?_⟩
  · exact (unified_history_error_taxonomy (.ok none) (fun _ _ _ => .ok []) "c-1" "u-1"
      50 0 none true false 10).1 rfl
  · exact (unified_history_error_taxonomy (.ok (some { user_id := "owner" }))
      (fun _ _ _ => .ok []) "c-1" "u-1" 50 0 none true false 10).2.1
      { user_id := "owner" } rfl (by decide)
  · exact (unified_history_error_taxonomy (.ok (some { user_id := "u-1" }))
      (fun _ _ _ => .ok []) "c-1" "u-1" 50 0 (some "chat_message, bogus") true false
      10).2.2.1 { user_id := "u-1" } "chat_message, bogus" " bogus" rfl rfl rfl
      (by decide) (by decide) (by decide)
  · exact (unified_history_error_taxonomy (.error (.other "redis timeout"))
      (fun _ _ _ => .ok []) "c-1" "u-1" 50 0 none true false 10).2.2.2.1
      "redis timeout" rfl
  · exact (unified_history_error_taxonomy (.ok (some { user_id := "u-1" }))
      (fun _ _ _ => .error (.other "database down")) "c-1" "u-1" 50 0 none true false
      10).2.2.2.2 { user_id := "u-1" } "database down" rfl rfl rfl rfl

end CopilotosBridge
